import Mathlib

/-!
Verification of the claw-router gateway against its specification.

The definitions below are a shallow embedding of the Rust sources:

* `Json` models `serde_json::Value` (numbers are modelled as rationals;
  `u64` extraction carries the `2^64` bound explicitly, and `u64` addition
  of extracted token counts wraps modulo `2^64`, the release-mode Rust
  semantics; a debug build aborts at the same inputs instead).
* String operations mirror the Rust standard library on the fragment the
  code exercises: `String::len` is the UTF-8 byte count
  (`String.utf8ByteSize`), `str::contains` is substring search, and
  `str::to_lowercase` is modelled as per-character ASCII lowercasing
  (the refusal phrases the router searches for are all ASCII).
* Stateful code (the traffic ring, the routing loops) is modelled by
  explicit state passing; network calls and environment-variable lookups
  are oracle parameters, so every definition stays executable.
-/

namespace ClawRouter

/-- Shallow model of `serde_json::Value`. Objects are association lists
(first binding wins on lookup, as keys are unique in practice); numbers
are rationals, which embeds both the `u64` and the `f64` uses in the
sources. -/
inductive Json where
  | null
  | bool (b : Bool)
  | num (q : Rat)
  | str (s : String)
  | arr (xs : List Json)
  | obj (kvs : List (String × Json))

/-- Model of indexing `value[key]` on a shared reference: missing keys and
non-objects yield `Null`. -/
def Json.index (j : Json) (k : String) : Json :=
  match j with
  | .obj kvs => (kvs.lookup k).getD .null
  | _ => .null

/-- Model of `Value::get(key)`: `Some` only when the value is an object
holding the key. -/
def Json.getKey (j : Json) (k : String) : Option Json :=
  match j with
  | .obj kvs => kvs.lookup k
  | _ => none

/-- Model of array indexing inside a JSON pointer: `None` when the value is
not an array or the index is out of bounds. -/
def Json.getIdx (j : Json) (i : Nat) : Option Json :=
  match j with
  | .arr xs => xs.get? i
  | _ => none

/-- Model of `Value::as_str`. -/
def Json.as_str (j : Json) : Option String :=
  match j with
  | .str s => some s
  | _ => none

/-- Model of `Value::as_array`. -/
def Json.as_arr (j : Json) : Option (List Json) :=
  match j with
  | .arr xs => some xs
  | _ => none

/-- Model of `Value::as_u64`: defined exactly on integral rationals in
`[0, 2^64)`. -/
def Json.as_u64 (j : Json) : Option Nat :=
  match j with
  | .num q => if q.den = 1 ∧ 0 ≤ q.num ∧ q.num < 2 ^ 64 then some q.num.toNat else none
  | _ => none

/-- Model of `Value::as_f64`: the rational itself stands in for the float. -/
def Json.as_f64 (j : Json) : Option Rat :=
  match j with
  | .num q => some q
  | _ => none

/-- Model of `Value == "<literal>"` (`PartialEq<str>`): true exactly when the
value is a string with that content. -/
def Json.eqStr (j : Json) (s : String) : Bool :=
  j.as_str == some s

/-- Replace the binding for `k` in place, or append it; this is the effect of
`map.insert` behind `value[key] = v` on an object. On non-objects the Rust
code never performs this assignment, so they are returned unchanged. -/
def setAssoc (kvs : List (String × Json)) (k : String) (v : Json) :
    List (String × Json) :=
  match kvs with
  | [] => [(k, v)]
  | (k', v') :: rest => if k' = k then (k, v) :: rest else (k', v') :: setAssoc rest k v

/-- Model of `value[key] = v` on an object. -/
def Json.setKey (j : Json) (k : String) (v : Json) : Json :=
  match j with
  | .obj kvs => .obj (setAssoc kvs k v)
  | _ => j

/-- Per-character ASCII lowercasing, the fragment of `str::to_lowercase`
relevant to the ASCII refusal phrases the router searches for. -/
def toLowerAscii (s : String) : String :=
  ⟨s.data.map Char.toLower⟩

/-- Substring test on character lists (UTF-8 is self-synchronizing, so
byte-level `str::contains` agrees with character-level containment). -/
def containsSub (hay needle : List Char) : Bool :=
  if needle.isPrefixOf hay then true
  else
    match hay with
    | [] => false
    | _ :: t => containsSub t needle

/-- Model of `str::contains(needle)`. -/
def strContains (hay needle : String) : Bool :=
  containsSub hay.data needle.data

/-- The refusal phrases from `router.rs::is_sufficient`. -/
def refusalPhrases : List String :=
  ["i don\x27t know", "i cannot", "i\x27m not able to", "as an ai",
   "i don\x27t have enough information"]

/-- Model of `response.pointer("/choices/0/message/content").and_then(Value::as_str)`. -/
def contentOf (response : Json) : Option String :=
  ((((response.getKey "choices").bind (fun c => c.getIdx 0)).bind
    (fun c => c.getKey "message")).bind (fun m => m.getKey "content")).bind Json.as_str

/-- Model of `router.rs::is_sufficient`: the Rust `content.len()` counts
UTF-8 bytes, hence `String.utf8ByteSize`. -/
def is_sufficient (response : Json) : Bool :=
  let content := (contentOf response).getD ""
  if content.utf8ByteSize < 20 then false
  else
    let lower := toLowerAscii content
    if refusalPhrases.any (fun p => strContains lower p) then false
    else true

/-- The insufficiency condition exactly as the claim words it: content
missing, or fewer than 20 characters, or a lower-cased refusal phrase. -/
def insufficientPerClaim (r : Json) : Bool :=
  match contentOf r with
  | none => true
  | some c =>
      decide (c.length < 20) ||
        refusalPhrases.any (fun p => strContains (toLowerAscii c) p)

/-- The insufficiency condition with the length clause corrected to UTF-8
bytes, matching `content.len()` in the source. -/
def insufficientAmended (r : Json) : Bool :=
  match contentOf r with
  | none => true
  | some c =>
      decide (c.utf8ByteSize < 20) ||
        refusalPhrases.any (fun p => strContains (toLowerAscii c) p)

/-- A response whose content has 10 characters but 20 UTF-8 bytes. -/
def respTenWideChars : Json :=
  .obj [("choices", .arr [.obj [("message",
    .obj [("content", .str "éééééééééé")])]])]

-- ──────────────────────────────────────────────────────────────────────────
-- Traffic ring (traffic.rs)
-- ──────────────────────────────────────────────────────────────────────────

/-- Model of `TrafficEntry`. The UUID, wall-clock timestamp and measured
latency are environment-supplied and never consulted by the modelled
operations, so they are omitted; `id` models the request-ID override. -/
structure TrafficEntry where
  profile : Option String := none
  requested_model : Option String := none
  tier : String
  backend : String
  routing_mode : Option String := none
  escalated : Bool := false
  success : Bool
  error : Option String := none
  id : Option String := none

/-- Model of `TrafficLog`: the deque is a list with the front (oldest) at the
head and the back (newest) at the end. -/
structure TrafficLog where
  capacity : Nat
  entries : List TrafficEntry

/-- Model of `TrafficLog::new`. -/
def TrafficLog.new (capacity : Nat) : TrafficLog :=
  ⟨capacity, []⟩

/-- Model of `TrafficLog::push` in the single-threaded, contention-free case
(the `try_lock` succeeds; contention drops are concurrency and not modelled).
As in the source, `pop_front` runs only when `len == capacity`, and the entry
is then pushed at the back unconditionally. -/
def TrafficLog.push (log : TrafficLog) (entry : TrafficEntry) : TrafficLog :=
  let entries :=
    if log.entries.length == log.capacity then log.entries.drop 1 else log.entries
  { log with entries := entries ++ [entry] }

/-- Model of `TrafficLog::recent`: up to `limit` entries, newest first. -/
def TrafficLog.recent (log : TrafficLog) (limit : Nat) : List TrafficEntry :=
  log.entries.reverse.take limit

/-- A first sample record. -/
def entryA : TrafficEntry :=
  { tier := "local:fast", backend := "mock", success := true }

/-- A second sample record. -/
def entryB : TrafficEntry :=
  { tier := "cloud:economy", backend := "mock", success := true }

-- ──────────────────────────────────────────────────────────────────────────
-- Config (config.rs)
-- ──────────────────────────────────────────────────────────────────────────

/-- Model of `config.rs::Provider`. -/
inductive Provider where
  | openai
  | openrouter
  | ollama
  | anthropic

/-- Model of `config.rs::RoutingMode`. -/
inductive RoutingMode where
  | dispatch
  | escalate

/-- Model of `config.rs::BackendConfig` (`f64` throttling does not occur
here; `timeout_ms` is carried but not consulted by the modelled logic). -/
structure BackendConfig where
  base_url : String
  api_key_env : Option String := none
  timeout_ms : Nat := 30000
  provider : Provider := .openai

/-- Model of `config.rs::GatewayConfig`. The `health_window` and
`health_error_threshold` fields exist in the source exactly as here; the
threshold `f64` is modelled as a rational. -/
structure GatewayConfig where
  client_port : Nat := 8080
  admin_port : Nat := 8081
  traffic_log_capacity : Nat := 500
  log_level : Option String := none
  rate_limit_rpm : Option Nat := none
  admin_token_env : Option String := none
  max_retries : Option Nat := none
  retry_delay_ms : Option Nat := none
  health_window : Option Nat := none
  health_error_threshold : Option Rat := none

/-- Model of `config.rs::TierConfig`. -/
structure TierConfig where
  name : String
  backend : String
  model : String

/-- Model of `config.rs::ProfileConfig`. -/
structure ProfileConfig where
  mode : RoutingMode := .dispatch
  classifier : String
  max_auto_tier : String
  expert_requires_flag : Bool := false

/-- Model of `config.rs::ClientConfig`. -/
structure ClientConfig where
  key_env : String
  profile : String

/-- Model of `config.rs::Config`. The `HashMap`s are association lists; only
key membership and lookup are consulted, so iteration order is immaterial to
validation success. -/
structure Config where
  gateway : GatewayConfig := {}
  backends : List (String × BackendConfig) := []
  tiers : List TierConfig := []
  aliases : List (String × String) := []
  profiles : List (String × ProfileConfig) := []
  clients : List ClientConfig := []

/-- The set of tier names, as computed in `Config::validate`. -/
def tierNames (cfg : Config) : List String :=
  cfg.tiers.map (·.name)

/-- First validation pass of `Config::validate`: every tier references a
known backend. -/
def checkTiers (backends : List (String × BackendConfig)) :
    List TierConfig → Except String Unit
  | [] => .ok ()
  | t :: rest =>
    if (backends.lookup t.backend).isSome then checkTiers backends rest
    else .error ("tier " ++ t.name ++ " references unknown backend " ++ t.backend)

/-- Second validation pass: every alias maps to a known tier. -/
def checkAliases (names : List String) :
    List (String × String) → Except String Unit
  | [] => .ok ()
  | (aliasName, tier) :: rest =>
    if names.contains tier then checkAliases names rest
    else .error ("alias " ++ aliasName ++ " maps to unknown tier " ++ tier)

/-- Third validation pass: every profile classifier is a known tier. This is
the only check `Config::validate` performs on a profile. -/
def checkProfiles (names : List String) :
    List (String × ProfileConfig) → Except String Unit
  | [] => .ok ()
  | (pname, profile) :: rest =>
    if names.contains profile.classifier then checkProfiles names rest
    else .error ("profile " ++ pname ++ " classifier references unknown tier " ++
      profile.classifier)

/-- Fourth validation pass: every client entry references a known profile. -/
def checkClients (profileNames : List String) :
    List ClientConfig → Except String Unit
  | [] => .ok ()
  | c :: rest =>
    if profileNames.contains c.profile then checkClients profileNames rest
    else .error ("clients entry with key_env " ++ c.key_env ++
      " references unknown profile " ++ c.profile)

/-- Model of `Config::validate`: the four passes in source order with
first-error semantics. -/
def Config.validate (cfg : Config) : Except String Unit :=
  match checkTiers cfg.backends cfg.tiers with
  | .error e => .error e
  | .ok _ =>
    match checkAliases (tierNames cfg) cfg.aliases with
    | .error e => .error e
    | .ok _ =>
      match checkProfiles (tierNames cfg) cfg.profiles with
      | .error e => .error e
      | .ok _ => checkClients (cfg.profiles.map (·.1)) cfg.clients

/-- Model of `Config::resolve_tier`: follow the alias if the string is an
alias key, then look the result up as a tier name. -/
def Config.resolve_tier (cfg : Config) (model : String) : Option TierConfig :=
  let tier_name := (cfg.aliases.lookup model).getD model
  cfg.tiers.find? (fun t => t.name == tier_name)

/-- Model of `Config::profile`: the named profile, else the default one. -/
def Config.profile (cfg : Config) (name : String) : Option ProfileConfig :=
  (cfg.profiles.lookup name).orElse (fun _ => cfg.profiles.lookup "default")

/-- A config whose single profile has a valid classifier but a
`max_auto_tier` naming no tier. -/
def cfgDanglingCeiling : Config :=
  { backends := [("mock", { base_url := "http://mock" })]
    tiers := [{ name := "local:fast", backend := "mock", model := "m" }]
    profiles := [("default",
      { classifier := "local:fast", max_auto_tier := "no-such-tier" })] }

-- ──────────────────────────────────────────────────────────────────────────
-- Anthropic adapter (backends/anthropic.rs)
-- ──────────────────────────────────────────────────────────────────────────

/-- Model of `anthropic.rs::DEFAULT_MAX_TOKENS`. -/
def DEFAULT_MAX_TOKENS : Nat := 8192

/-- The partition test inside `to_anthropic`: `msg["role"].as_str() == Some("system")`. -/
def isSystemMsg (m : Json) : Bool :=
  (m.index "role").as_str == some "system"

/-- The `system_parts` accumulation of `to_anthropic`: the string contents of
system-role messages, in order; a system message whose `content` is not a
string contributes nothing. -/
def systemContents (msgs : List Json) : List String :=
  msgs.filterMap (fun m =>
    if isSystemMsg m then (m.index "content").as_str else none)

/-- The temperature forwarding step of `to_anthropic`. -/
def forwardTemperature (request j : Json) : Json :=
  match (request.index "temperature").as_f64 with
  | some t => j.setKey "temperature" (.num t)
  | none => j

/-- The `stop` → `stop_sequences` forwarding step of `to_anthropic`. -/
def forwardStop (request j : Json) : Json :=
  match request.getKey "stop" with
  | some s => j.setKey "stop_sequences" s
  | none => j

/-- Model of `anthropic.rs::to_anthropic`. -/
def to_anthropic (request : Json) : Except String Json :=
  match (request.index "model").as_str with
  | none => .error "model field is required"
  | some model =>
    let max_tokens := ((request.index "max_tokens").as_u64).getD DEFAULT_MAX_TOKENS
    match (request.index "messages").as_arr with
    | none => .error "messages array is required"
    | some raw_messages =>
      let system_parts := systemContents raw_messages
      let messages := raw_messages.filter (fun m => !(isSystemMsg m))
      let req : Json := .obj
        [("model", .str model),
         ("max_tokens", .num (max_tokens : Rat)),
         ("messages", .arr messages)]
      let req :=
        if system_parts.isEmpty then req
        else req.setKey "system" (.str (String.intercalate "\n\n" system_parts))
      .ok (forwardStop request (forwardTemperature request req))

/-- The block selector of `from_anthropic`: `b["type"] == "text"`. -/
def isTextBlock (b : Json) : Bool :=
  (b.index "type").eqStr "text"

/-- Model of `anthropic.rs::from_anthropic`. The `u64` sum
`input_tokens + output_tokens` wraps modulo `2^64` (release-mode Rust
semantics; a debug build aborts on the same overflow). -/
def from_anthropic (resp : Json) : Except String Json :=
  match ((resp.index "content").as_arr).bind
      (fun blocks => blocks.find? isTextBlock)
      |>.bind (fun b => (b.index "text").as_str) with
  | none => .error "no text block in Anthropic response content array"
  | some text =>
    let model := ((resp.index "model").as_str).getD "unknown"
    let stop := ((resp.index "stop_reason").as_str).getD "stop"
    let finish_reason :=
      if stop == "end_turn" then "stop"
      else if stop == "max_tokens" then "length"
      else stop
    let input_tokens := (((resp.index "usage").index "input_tokens").as_u64).getD 0
    let output_tokens := (((resp.index "usage").index "output_tokens").as_u64).getD 0
    .ok (.obj
      [("id", resp.index "id"),
       ("object", .str "chat.completion"),
       ("model", .str model),
       ("choices", .arr [.obj
         [("index", .num 0),
          ("message", .obj [("role", .str "assistant"), ("content", .str text)]),
          ("finish_reason", .str finish_reason)]]),
       ("usage", .obj
         [("prompt_tokens", .num (input_tokens : Rat)),
          ("completion_tokens", .num (output_tokens : Rat)),
          ("total_tokens",
            .num ((((input_tokens + output_tokens) % 2 ^ 64 : Nat) : Rat)))])])

/-- The common frame shape built by every branch of `translate_sse_event`:
id, object type, model, and a single choice object. -/
def sseChunk (msg_id model : String) (choice : List (String × Json)) : Json :=
  .obj [("id", .str msg_id), ("object", .str "chat.completion.chunk"),
        ("model", .str model), ("choices", .arr [.obj choice])]

/-- The `message_start` model capture: when the payload parses and carries a
string at `/message/model`, it becomes the new parser-state model, otherwise
the state is unchanged. -/
def capturedModel (data : Option Json) (model : String) : String :=
  match data.bind (fun v => ((v.index "message").index "model").as_str) with
  | some m => m
  | none => model

/-- Model of `anthropic.rs::translate_sse_event`. The `data` argument is the
parse result of the `data:` payload (`none` models a JSON parse failure);
the returned string is the updated `model` parser state. -/
def translate_sse_event (event_type : String) (data : Option Json)
    (msg_id : String) (model : String) : Option Json × String :=
  if event_type == "message_start" then
    let model' := capturedModel data model
    (some (sseChunk msg_id model'
      [("index", .num 0),
       ("delta", .obj [("role", .str "assistant"), ("content", .str "")]),
       ("finish_reason", .null)]), model')
  else if event_type == "content_block_delta" then
    match data.bind (fun v => ((v.index "delta").index "text").as_str) with
    | none => (none, model)
    | some text =>
      (some (sseChunk msg_id model
        [("index", .num 0), ("delta", .obj [("content", .str text)]),
         ("finish_reason", .null)]), model)
  else if event_type == "message_delta" then
    match data with
    | none => (none, model)
    | some v =>
      let finish : Json :=
        match ((v.index "delta").index "stop_reason").as_str with
        | some r =>
          .str (if r == "end_turn" then "stop"
            else if r == "max_tokens" then "length" else r)
        | none => .null
      (some (sseChunk msg_id model
        [("index", .num 0), ("delta", .obj []), ("finish_reason", finish)]), model)
  else (none, model)

/-- One upstream SSE line, as classified by the reader loop in
`chat_completions_stream`: blank, an `event:` line, a `data:` line (carrying
its parse result), or anything else (ignored). -/
inductive SseLine where
  | blank
  | event (name : String)
  | data (payload : Option Json)
  | other

/-- One frame sent to the output channel: a translated chunk, or the final
literal `data: [DONE]` frame. -/
inductive Frame where
  | chunk (j : Json)
  | done

/-- Whether a frame is the final `[DONE]` sentinel. -/
def isDone : Frame → Bool
  | .done => true
  | .chunk _ => false

/-- Model of the reader-task loop of `chat_completions_stream`: blank lines
clear the current event type, `event:` lines set it, `data:` lines are
translated (emitting when the translator returns a chunk), and the `[DONE]`
frame is sent once the upstream ends. -/
def streamLoop (msg_id : String) (lines : List SseLine)
    (event_type : String) (model : String) : List Frame :=
  match lines with
  | [] => [.done]
  | line :: rest =>
    match line with
    | .blank => streamLoop msg_id rest "" model
    | .event name => streamLoop msg_id rest name model
    | .data payload =>
      match translate_sse_event event_type payload msg_id model with
      | (some j, model') => .chunk j :: streamLoop msg_id rest event_type model'
      | (none, model') => streamLoop msg_id rest event_type model'
    | .other => streamLoop msg_id rest event_type model

/-- The full frame sequence produced for one upstream stream: parser state
starts with an empty event type and model `"unknown"`. -/
def chat_completions_stream_frames (msg_id : String) (lines : List SseLine) :
    List Frame :=
  streamLoop msg_id lines "" "unknown"

-- ──────────────────────────────────────────────────────────────────────────
-- Router core (router.rs, backends/mod.rs)
-- ──────────────────────────────────────────────────────────────────────────

/-- Model of `BackendConfig::api_key`: the configured environment variable
read through the environment oracle `env`. -/
def BackendConfig.api_key (cfg : BackendConfig) (env : String → Option String) :
    Option String :=
  cfg.api_key_env.bind env

/-- Model of `BackendClient::new`: construction succeeds for every provider
except an Anthropic backend whose API key does not resolve. The HTTP client
itself is not modelled; adapter calls go through the response oracle. -/
def backendClientNew (env : String → Option String) (cfg : BackendConfig) :
    Except String Unit :=
  match cfg.provider with
  | .anthropic =>
    match cfg.api_key env with
    | some _ => .ok ()
    | none => .error "Anthropic backend requires an API key"
  | _ => .ok ()

/-- The in-place body rewrite before each backend call:
`body.model = tier.model; body.stream = stream`. -/
def rewriteBody (body : Json) (tier : TierConfig) (stream : Bool) : Json :=
  (body.setKey "model" (.str tier.model)).setKey "stream" (.bool stream)

/-- Model of the `escalate` candidate ceiling `max_idx`: the index of the
tier named `profile.max_auto_tier`, or the last index when absent. On an
empty tier list the Rust `len() - 1` underflows; `route` reaches `escalate`
only after resolving a target tier, so at least one tier exists there. -/
def escalateMaxIdx (cfg : Config) (profile : ProfileConfig) : Nat :=
  match cfg.tiers.findIdx? (fun t => t.name == profile.max_auto_tier) with
  | some i => i
  | none => cfg.tiers.length - 1

/-- The traffic entry built for a winning escalate candidate:
`TrafficEntry::new(tier, backend, _, true)`, marked escalated when the
candidate index is positive. -/
def escalateEntry (tier : TierConfig) (idx : Nat) : TrafficEntry :=
  { tier := tier.name, backend := tier.backend, success := true,
    escalated := decide (0 < idx) }

/-- The candidate loop of `router.rs::escalate` over the enumerated
candidates, also returning the trace of backends whose adapter was called
(the network outcome of the i-th candidate is the oracle value `respond i`).
Missing backends and failed client builds skip without a call; call errors
and insufficient responses skip after the call. -/
def escalateGo (cfg : Config) (env : String → Option String)
    (respond : Nat → Except String Json) (stream : Bool) :
    List (Nat × TierConfig) → Json →
      Except String (Json × TrafficEntry) × List String
  | [], _ => (.error "all tiers exhausted without a sufficient response", [])
  | (idx, tier) :: rest, body =>
    match cfg.backends.lookup tier.backend with
    | none => escalateGo cfg env respond stream rest body
    | some backend_cfg =>
      let body' := rewriteBody body tier stream
      match backendClientNew env backend_cfg with
      | .error _ => escalateGo cfg env respond stream rest body'
      | .ok _ =>
        match respond idx with
        | .ok response =>
          if is_sufficient response then
            (.ok (response, escalateEntry tier idx), [tier.backend])
          else
            let r := escalateGo cfg env respond stream rest body'
            (r.1, tier.backend :: r.2)
        | .error _ =>
          let r := escalateGo cfg env respond stream rest body'
          (r.1, tier.backend :: r.2)

/-- Model of `router.rs::escalate`: iterate the tiers at indices
`[0 ..= max_idx]` in list order. -/
def escalateRun (cfg : Config) (profile : ProfileConfig)
    (env : String → Option String) (respond : Nat → Except String Json)
    (body : Json) (stream : Bool) :
    Except String (Json × TrafficEntry) × List String :=
  escalateGo cfg env respond stream
    ((cfg.tiers.take (escalateMaxIdx cfg profile + 1)).enum) body

/-- Model of `router.rs::dispatch`: a single adapter call to the resolved
tier; any error propagates. -/
def dispatchRun (cfg : Config) (body : Json) (tier : TierConfig) (stream : Bool)
    (env : String → Option String) (respond : Nat → Except String Json) :
    Except String (Json × TrafficEntry) :=
  match cfg.backends.lookup tier.backend with
  | none => .error ("backend " ++ tier.backend ++ " not in config")
  | some backend_cfg =>
    let _body' := rewriteBody body tier stream
    match backendClientNew env backend_cfg with
    | .error e => .error e
    | .ok _ =>
      match respond 0 with
      | .error e => .error e
      | .ok response =>
        .ok (response, { tier := tier.name, backend := tier.backend, success := true })

/-- Modelled from the spec: `TrafficEntry::with_id` is called by `route` but
its definition is absent from the sources; per the spec the router enriches
the winning record with the request ID. -/
def TrafficEntry.with_id (entry : TrafficEntry) (i : String) : TrafficEntry :=
  { entry with id := some i }

/-- The `target_tier` resolution of `route`: the resolved tier, else the
profile's classifier tier. -/
def targetTier (cfg : Config) (profile : ProfileConfig) (model_hint : String) :
    Option TierConfig :=
  match cfg.resolve_tier model_hint with
  | some tier => some tier
  | none => cfg.tiers.find? (fun t => t.name == profile.classifier)

/-- Model of `router.rs::route` for non-streaming requests: profile lookup,
model-hint resolution, dispatch or escalate, record enrichment, then the
push into the traffic ring. Errors propagate before any push. -/
def routeRun (cfg : Config) (log : TrafficLog) (body : Json)
    (profile_name : Option String) (request_id : Option String) (stream : Bool)
    (env : String → Option String) (respond : Nat → Except String Json) :
    Except String (Json × TrafficEntry) × TrafficLog :=
  let profileName := profile_name.getD "default"
  match cfg.profile profileName with
  | none => (.error "no matching profile and no default profile configured", log)
  | some profile =>
    let model_hint := ((body.getKey "model").bind Json.as_str).getD "hint:fast"
    match targetTier cfg profile model_hint with
    | none => (.error "classifier tier not found", log)
    | some target_tier =>
      let result :=
        match profile.mode with
        | .dispatch => dispatchRun cfg body target_tier stream env respond
        | .escalate => (escalateRun cfg profile env respond body stream).1
      match result with
      | .error e => (.error e, log)
      | .ok (response, entry) =>
        let entry := { entry with
          profile := some profileName,
          requested_model := some model_hint,
          routing_mode := some (match profile.mode with
            | .dispatch => "dispatch"
            | .escalate => "escalate") }
        let entry :=
          match request_id with
          | some i => entry.with_id i
          | none => entry
        (.ok (response, entry), log.push entry)

/-- Modelled from the spec: `TrafficLog::backend_health` is described by the
spec and by the `health_window` / `health_error_threshold` doc comments in
`config.rs`, but no such method exists in `traffic.rs`. Over the most
recent `window` records, a backend is healthy iff it has fewer than
`MIN_SAMPLES = 3` samples there or its error rate (the rational
`errors / total`, here `mkRat errors total`) is at most `threshold`. -/
def backendHealthy (log : TrafficLog) (window : Nat) (threshold : Rat)
    (backend : String) : Bool :=
  let recentEntries := log.entries.reverse.take window
  let rel := recentEntries.filter (fun e => e.backend == backend)
  let total := rel.length
  let errors := (rel.filter (fun e => !e.success)).length
  decide (total < 3) || decide (mkRat errors total ≤ threshold)

/-- The per-candidate success test of the escalate loop, as the claim states
it: backend present, adapter construction succeeds, the call returns, and
the response is sufficient. -/
def escGood (cfg : Config) (env : String → Option String)
    (respond : Nat → Except String Json) (it : Nat × TierConfig) : Bool :=
  match cfg.backends.lookup it.2.backend with
  | none => false
  | some backend_cfg =>
    match backendClientNew env backend_cfg with
    | .error _ => false
    | .ok _ =>
      match respond it.1 with
      | .ok response => is_sufficient response
      | .error _ => false

-- ──────────────────────────────────────────────────────────────────────────
-- Concrete router scenarios
-- ──────────────────────────────────────────────────────────────────────────

/-- The cheap tier, served by backend `b0`. -/
def tierFast : TierConfig := { name := "local:fast", backend := "b0", model := "m0" }

/-- The next tier up, served by backend `b1`. -/
def tierEco : TierConfig := { name := "cloud:economy", backend := "b1", model := "m1" }

/-- An escalate-mode profile with ceiling `cloud:economy`. -/
def profEscalate : ProfileConfig :=
  { mode := .escalate, classifier := "local:fast", max_auto_tier := "cloud:economy" }

/-- A two-tier escalate config with a health window of 10 and an error-rate
threshold of one half configured. -/
def cfgHealth : Config :=
  { gateway := { health_window := some 10, health_error_threshold := some (mkRat 1 2) }
    backends := [("b0", { base_url := "http://b0" }), ("b1", { base_url := "http://b1" })]
    tiers := [tierFast, tierEco]
    profiles := [("default", profEscalate)] }

/-- A failed request served by backend `b0`. -/
def failedB0 : TrafficEntry :=
  { tier := "local:fast", backend := "b0", success := false }

/-- A ring holding three consecutive failures of backend `b0`. -/
def logThreeFailures : TrafficLog :=
  (((TrafficLog.new 100).push failedB0).push failedB0).push failedB0

/-- A response comfortably passing the sufficiency heuristic. -/
def goodResponse : Json := .obj [("choices", .arr [.obj [("message", .obj
  [("content", .str "This answer is long enough to pass the heuristic.")])]])]

/-- A too-short response ("idk"), failing the sufficiency heuristic. -/
def shortResponse : Json := .obj [("choices", .arr [.obj [("message", .obj
  [("content", .str "idk")])]])]

/-- An oracle making every adapter call succeed with a sufficient answer. -/
def respondAlwaysGood : Nat → Except String Json := fun _ => .ok goodResponse

/-- An oracle whose first candidate answers insufficiently and whose later
candidates answer well. -/
def respondShortThenGood : Nat → Except String Json := fun i =>
  if i == 0 then .ok shortResponse else .ok goodResponse

/-- An oracle failing every adapter call. -/
def respondBoom : Nat → Except String Json := fun _ => .error "boom"

/-- An empty environment: no variable resolves. -/
def envEmpty : String → Option String := fun _ => none

/-- A single-tier dispatch-mode config. -/
def cfgDispatch : Config :=
  { backends := [("b0", { base_url := "http://b0" })]
    tiers := [tierFast]
    profiles := [("default",
      { mode := .dispatch, classifier := "local:fast", max_auto_tier := "local:fast" })] }

/-- A request body pinning the `local:fast` tier. -/
def reqFast : Json := .obj [("model", .str "local:fast"), ("messages", .arr [])]

/-- A content block of type text carrying "Hi". -/
def textBlockHi : Json := .obj [("type", .str "text"), ("text", .str "Hi")]

/-- A Messages-style response with one text block, stop reason
`max_tokens`, and usage 3/4. -/
def respScenario : Json := .obj
  [("id", .str "msg_1"), ("model", .str "M"),
   ("content", .arr [textBlockHi]),
   ("stop_reason", .str "max_tokens"),
   ("usage", .obj [("input_tokens", .num 3), ("output_tokens", .num 4)])]

/-- A Messages-style response whose token counts are `2 ^ 64 - 1` and `1`,
so their `u64` sum overflows. -/
def respOverflow : Json := .obj
  [("id", .str "msg_o"), ("model", .str "M"),
   ("content", .arr [textBlockHi]),
   ("stop_reason", .str "end_turn"),
   ("usage", .obj [("input_tokens", .num 18446744073709551615),
                   ("output_tokens", .num 1)])]

/-- A `content_block_delta` payload carrying the text "Hi!". -/
def sseDeltaHi : Json := .obj [("type", .str "content_block_delta"),
  ("index", .num 0),
  ("delta", .obj [("type", .str "text_delta"), ("text", .str "Hi!")])]

/-- A system message with content "A". -/
def msgSysA : Json := .obj [("role", .str "system"), ("content", .str "A")]

/-- A system message with content "B". -/
def msgSysB : Json := .obj [("role", .str "system"), ("content", .str "B")]

/-- A user message. -/
def msgUser : Json := .obj [("role", .str "user"), ("content", .str "Hi")]

/-- A request with two system messages and one user message. -/
def reqTwoSystems : Json := .obj [("model", .str "X"), ("max_tokens", .num 256),
  ("messages", .arr [msgSysA, msgSysB, msgUser])]

/-- A system-role message whose content is an array, not a string. -/
def msgSysNonString : Json :=
  .obj [("role", .str "system"), ("content", .arr [.str "A"])]

/-- A request whose only system message carries non-string content. -/
def reqNonStringSystem : Json := .obj [("model", .str "X"),
  ("messages", .arr [msgSysNonString, msgUser])]

-- ──────────────────────────────────────────────────────────────────────────
-- Lookup and setKey lemmas
-- ──────────────────────────────────────────────────────────────────────────

theorem lookup_setAssoc_self (kvs : List (String × Json)) (k : String) (v : Json) :
    (setAssoc kvs k v).lookup k = some v := by
  induction kvs with
  | nil => simp [setAssoc, List.lookup]
  | cons hd tl ih =>
    obtain ⟨k', v'⟩ := hd
    by_cases h : k' = k
    · subst h; simp [setAssoc, List.lookup]
    · have hb : (k == k') = false := beq_eq_false_iff_ne.mpr (Ne.symm h)
      simp [setAssoc, h, List.lookup, hb, ih]

theorem lookup_setAssoc_ne (kvs : List (String × Json)) (k k' : String) (v : Json)
    (h : k' ≠ k) : (setAssoc kvs k v).lookup k' = kvs.lookup k' := by
  have hb : (k' == k) = false := beq_eq_false_iff_ne.mpr h
  induction kvs with
  | nil => simp [setAssoc, List.lookup, hb]
  | cons hd tl ih =>
    obtain ⟨k0, v0⟩ := hd
    by_cases h0 : k0 = k
    · subst h0; simp [setAssoc, List.lookup, hb]
    · simp [setAssoc, h0, List.lookup, ih]

theorem Json.index_setKey_self (kvs : List (String × Json)) (k : String) (v : Json) :
    ((Json.obj kvs).setKey k v).index k = v := by
  simp [Json.setKey, Json.index, lookup_setAssoc_self]

theorem Json.index_setKey_ne (j : Json) (k k' : String) (v : Json) (h : k' ≠ k) :
    (j.setKey k v).index k' = j.index k' := by
  cases j <;> simp [Json.setKey, Json.index, lookup_setAssoc_ne _ _ _ _ h]

theorem Json.getKey_setKey_ne (j : Json) (k k' : String) (v : Json) (h : k' ≠ k) :
    (j.setKey k v).getKey k' = j.getKey k' := by
  cases j <;> simp [Json.setKey, Json.getKey, lookup_setAssoc_ne _ _ _ _ h]

theorem index_forwardTemperature (request j : Json) (k : String)
    (h : k ≠ "temperature") :
    (forwardTemperature request j).index k = j.index k := by
  unfold forwardTemperature
  cases (request.index "temperature").as_f64 <;>
    simp [Json.index_setKey_ne _ _ _ _ h]

theorem index_forwardStop (request j : Json) (k : String)
    (h : k ≠ "stop_sequences") :
    (forwardStop request j).index k = j.index k := by
  unfold forwardStop
  cases request.getKey "stop" <;> simp [Json.index_setKey_ne _ _ _ _ h]

theorem getKey_forwardTemperature (request j : Json) (k : String)
    (h : k ≠ "temperature") :
    (forwardTemperature request j).getKey k = j.getKey k := by
  unfold forwardTemperature
  cases (request.index "temperature").as_f64 <;>
    simp [Json.getKey_setKey_ne _ _ _ _ h]

theorem getKey_forwardStop (request j : Json) (k : String)
    (h : k ≠ "stop_sequences") :
    (forwardStop request j).getKey k = j.getKey k := by
  unfold forwardStop
  cases request.getKey "stop" <;> simp [Json.getKey_setKey_ne _ _ _ _ h]

theorem Json.as_u64_num_nat (n : Nat) (h : n < 2 ^ 64) :
    (Json.num (n : Rat)).as_u64 = some n := by
  simp only [Json.as_u64]
  rw [if_pos ⟨Rat.den_natCast n, by simp, by simpa using Int.ofNat_lt.mpr h⟩]
  simp

theorem Json.as_u64_lt (j : Json) (n : Nat) (h : j.as_u64 = some n) :
    n < 2 ^ 64 := by
  cases j <;> simp [Json.as_u64] at h
  rename_i q
  obtain ⟨⟨hden, hpos, hlt⟩, hn⟩ := h
  have h0 : (0 : Int) ≤ q.num := Rat.num_nonneg.mpr hpos
  omega

-- ──────────────────────────────────────────────────────────────────────────
-- Theorems: C3, C4, C6
-- ──────────────────────────────────────────────────────────────────────────

/-- C3 (code_bug evaluation): pushing two records into a zero-capacity ring
retains both of them — `recent` then returns both, newest first, where the
claim (and the module documentation) require a zero-capacity ring to retain
no records. The guard `len == capacity` fires only on the first push, so the
deque grows without bound past its capacity. -/
theorem zero_capacity_ring_retains_records :
    (((TrafficLog.new 0).push entryA).push entryB).recent 2 = [entryB, entryA] ∧
      (((TrafficLog.new 0).push entryA).push entryB).entries.length = 2 :=
  ⟨rfl, rfl⟩

/-- Every profile passing `checkProfiles` has a classifier among the given
tier names. -/
theorem checkProfiles_ok (names : List String) :
    ∀ ps, checkProfiles names ps = .ok () →
      ∀ p ∈ ps, names.contains p.2.classifier = true := by
  intro ps
  induction ps with
  | nil => intro _ p hp; cases hp
  | cons hd tl ih =>
    obtain ⟨pname, prof⟩ := hd
    intro h p hp
    unfold checkProfiles at h
    split at h
    · rcases List.mem_cons.mp hp with hp | hp
      · subst hp; assumption
      · exact ih h p hp
    · cases h

/-- C4 counterexample: a config whose profile names a nonexistent
`max_auto_tier` is accepted by `Config::validate`, contradicting the claim
that both tier references must be valid. -/
theorem validate_accepts_dangling_max_auto_tier :
    cfgDanglingCeiling.validate = .ok () ∧
      (tierNames cfgDanglingCeiling).contains "no-such-tier" = false ∧
      ((cfgDanglingCeiling.profiles.lookup "default").map
        (·.max_auto_tier)) = some "no-such-tier" :=
  ⟨rfl, rfl, rfl⟩

/-- C4 (corrected): config validation guarantees only the classifier tier
reference of each profile; the `max_auto_tier` reference is never checked. -/
theorem validate_checks_classifier (cfg : Config)
    (h : cfg.validate = .ok ()) :
    ∀ p ∈ cfg.profiles, (tierNames cfg).contains p.2.classifier = true := by
  unfold Config.validate at h
  rcases h1 : checkTiers cfg.backends cfg.tiers with e | u
  · rw [h1] at h; cases h
  · rw [h1] at h
    rcases h2 : checkAliases (tierNames cfg) cfg.aliases with e | u2
    · rw [h2] at h; cases h
    · rw [h2] at h
      rcases h3 : checkProfiles (tierNames cfg) cfg.profiles with e | u3
      · rw [h3] at h; cases h
      · cases u3
        exact checkProfiles_ok (tierNames cfg) cfg.profiles h3

/-- C4 witness: the corrected theorem applied to a concrete accepted config. -/
theorem validate_checks_classifier_witness :
    cfgDanglingCeiling.validate = .ok () ∧
      ∀ p ∈ cfgDanglingCeiling.profiles,
        (tierNames cfgDanglingCeiling).contains p.2.classifier = true :=
  ⟨rfl, validate_checks_classifier cfgDanglingCeiling rfl⟩

/-- C6 counterexample: a response whose content has 10 characters (fewer
than 20) but 20 UTF-8 bytes is judged sufficient by the code, where the
claim, reading length as characters, requires insufficiency. -/
theorem is_sufficient_wide_chars :
    ((contentOf respTenWideChars).getD "").length < 20 ∧
      insufficientPerClaim respTenWideChars = true ∧
      is_sufficient respTenWideChars = true :=
  ⟨by decide, by decide, by decide⟩

/-- C6 (corrected): `is_sufficient` returns false exactly when the first
choice content is missing, or shorter than 20 UTF-8 bytes (`content.len()`
counts bytes, not characters), or its lower-cased form contains a refusal
phrase. -/
theorem is_sufficient_false_iff (r : Json) :
    is_sufficient r = false ↔ insufficientAmended r = true := by
  unfold is_sufficient insufficientAmended
  cases h : contentOf r with
  | none => simp only [h, Option.getD]; decide
  | some c =>
    simp only [h, Option.getD]
    by_cases hb : c.utf8ByteSize < 20
    · simp [hb]
    · by_cases ha :
        refusalPhrases.any (fun p => strContains (toLowerAscii c) p) = true
      · simp [hb, ha]
      · simp only [Bool.not_eq_true] at ha
        simp [hb, ha]

/-- C7 (confirmed): for a request with a model string, a messages array, and
at least one system message, all of whose system messages carry string
content, the translation sets a top-level `system` field to the system
contents joined with a blank line, forwards the non-system messages
verbatim in order, and sets `max_tokens` to the caller value or 8192. -/
theorem to_anthropic_system_field
    (request : Json) (model : String) (msgs : List Json)
    (hm : (request.index "model").as_str = some model)
    (hmsgs : (request.index "messages").as_arr = some msgs)
    (hsys : ∃ m ∈ msgs, isSystemMsg m = true)
    (hstr : ∀ m ∈ msgs, isSystemMsg m = true → ((m.index "content").as_str).isSome) :
    ∃ out, to_anthropic request = .ok out ∧
      (out.index "system").as_str =
        some (String.intercalate "\n\n" (systemContents msgs)) ∧
      out.index "messages" = .arr (msgs.filter (fun m => !(isSystemMsg m))) ∧
      (out.index "max_tokens").as_u64 =
        some (((request.index "max_tokens").as_u64).getD DEFAULT_MAX_TOKENS) := by
  have hne : (systemContents msgs).isEmpty = false := by
    obtain ⟨m, hmem, hsm⟩ := hsys
    obtain ⟨c, hc⟩ := Option.isSome_iff_exists.mp (hstr m hmem hsm)
    have hcmem : c ∈ systemContents msgs := by
      unfold systemContents
      exact List.mem_filterMap.mpr ⟨m, hmem, by simp [hsm, hc]⟩
    cases hsc : systemContents msgs with
    | nil => rw [hsc] at hcmem; cases hcmem
    | cons a as => rfl
  unfold to_anthropic
  simp only [hm, hmsgs, hne, Bool.false_eq_true, if_false]
  refine ⟨_, rfl, ?_, ?_, ?_⟩
  · rw [index_forwardStop _ _ _ (by decide), index_forwardTemperature _ _ _ (by decide),
      Json.index_setKey_self]
    rfl
  · rw [index_forwardStop _ _ _ (by decide), index_forwardTemperature _ _ _ (by decide),
      Json.index_setKey_ne _ _ _ _ (by decide)]
    rfl
  · rw [index_forwardStop _ _ _ (by decide), index_forwardTemperature _ _ _ (by decide),
      Json.index_setKey_ne _ _ _ _ (by decide)]
    apply Json.as_u64_num_nat
    cases hmt : (request.index "max_tokens").as_u64 with
    | none => simp [DEFAULT_MAX_TOKENS]
    | some k => simpa using Json.as_u64_lt _ _ hmt

/-- C7 witness: the translation applied to a concrete request with system
messages "A" and "B", a user message, and `max_tokens` 256. -/
theorem to_anthropic_system_field_witness :
    ∃ out, to_anthropic reqTwoSystems = .ok out ∧
      (out.index "system").as_str = some "A\n\nB" ∧
      out.index "messages" = .arr [msgUser] ∧
      (out.index "max_tokens").as_u64 = some 256 :=
  to_anthropic_system_field reqTwoSystems "X" [msgSysA, msgSysB, msgUser] rfl rfl
    (by decide) (by decide)

/-- C10 (confirmed): a system-role message whose content is not a JSON
string is dropped: it contributes nothing to the `system` field and is
excluded from the forwarded messages array. -/
theorem to_anthropic_drops_nonstring_system
    (request : Json) (model : String) (pre suf : List Json) (m : Json)
    (hm : (request.index "model").as_str = some model)
    (hmsgs : (request.index "messages").as_arr = some (pre ++ m :: suf))
    (hrole : isSystemMsg m = true)
    (hcon : (m.index "content").as_str = none) :
    systemContents (pre ++ m :: suf) = systemContents (pre ++ suf) ∧
    ∃ out, to_anthropic request = .ok out ∧
      out.index "messages" = .arr ((pre ++ suf).filter (fun x => !(isSystemMsg x))) ∧
      (systemContents (pre ++ suf) = [] → out.getKey "system" = none) ∧
      (systemContents (pre ++ suf) ≠ [] →
        (out.index "system").as_str =
          some (String.intercalate "\n\n" (systemContents (pre ++ suf)))) := by
  have hsysEq : systemContents (pre ++ m :: suf) = systemContents (pre ++ suf) := by
    unfold systemContents
    rw [List.filterMap_append, List.filterMap_append, List.filterMap_cons]
    simp [hrole, hcon]
  have hfilEq : (pre ++ m :: suf).filter (fun x => !(isSystemMsg x)) =
      (pre ++ suf).filter (fun x => !(isSystemMsg x)) := by
    rw [List.filter_append, List.filter_append, List.filter_cons]
    simp [hrole]
  refine ⟨hsysEq, ?_⟩
  unfold to_anthropic
  simp only [hm, hmsgs, hsysEq, hfilEq]
  by_cases hsc : systemContents (pre ++ suf) = []
  · simp only [hsc, List.isEmpty_nil, if_true]
    refine ⟨_, rfl, ?_, ?_, ?_⟩
    · rw [index_forwardStop _ _ _ (by decide), index_forwardTemperature _ _ _ (by decide)]
      rfl
    · intro _
      rw [getKey_forwardStop _ _ _ (by decide), getKey_forwardTemperature _ _ _ (by decide)]
      rfl
    · intro hcontra; exact absurd rfl hcontra
  · have hne : (systemContents (pre ++ suf)).isEmpty = false := by
      cases hsc2 : systemContents (pre ++ suf) with
      | nil => exact absurd hsc2 hsc
      | cons a as => rfl
    simp only [hne, Bool.false_eq_true, if_false]
    refine ⟨_, rfl, ?_, ?_, ?_⟩
    · rw [index_forwardStop _ _ _ (by decide), index_forwardTemperature _ _ _ (by decide),
        Json.index_setKey_ne _ _ _ _ (by decide)]
      rfl
    · intro hcontra; exact absurd hcontra hsc
    · intro _
      rw [index_forwardStop _ _ _ (by decide), index_forwardTemperature _ _ _ (by decide),
        Json.index_setKey_self]
      rfl

/-- C10 witness: a concrete request whose system message carries an array as
content; the translation drops it and emits no `system` field. -/
theorem to_anthropic_drops_nonstring_system_witness :
    systemContents [msgSysNonString, msgUser] = systemContents [msgUser] ∧
    ∃ out, to_anthropic reqNonStringSystem = .ok out ∧
      out.index "messages" = .arr [msgUser] ∧
      (systemContents [msgUser] = [] → out.getKey "system" = none) ∧
      (systemContents [msgUser] ≠ [] →
        (out.index "system").as_str =
          some (String.intercalate "\n\n" (systemContents [msgUser]))) :=
  to_anthropic_drops_nonstring_system reqNonStringSystem "X" [] [msgUser]
    msgSysNonString rfl rfl (by decide) rfl

/-- C8 (corrected): the response translation fails when no text-typed block
exists, takes the first text block as the assistant content, maps
`end_turn`/`max_tokens` stop reasons to `stop`/`length` with passthrough
otherwise, and maps usage to prompt/completion/total tokens where the total
is the `u64` sum of the token counts, wrapping modulo `2 ^ 64`; whenever the
sum does not overflow it equals the plain sum. -/
theorem from_anthropic_spec (resp : Json) (blocks : List Json)
    (hc : (resp.index "content").as_arr = some blocks) :
    (blocks.find? isTextBlock = none → ∃ e, from_anthropic resp = .error e) ∧
    (∀ b t, blocks.find? isTextBlock = some b →
      (b.index "text").as_str = some t →
      ∃ c out, from_anthropic resp = .ok out ∧
        out.index "choices" = .arr [c] ∧
        (c.index "message").index "content" = .str t ∧
        ((resp.index "stop_reason").as_str = some "end_turn" →
          c.index "finish_reason" = .str "stop") ∧
        ((resp.index "stop_reason").as_str = some "max_tokens" →
          c.index "finish_reason" = .str "length") ∧
        (∀ s, (resp.index "stop_reason").as_str = some s → s ≠ "end_turn" →
          s ≠ "max_tokens" → c.index "finish_reason" = .str s) ∧
        (∀ i o, ((resp.index "usage").index "input_tokens").as_u64 = some i →
          ((resp.index "usage").index "output_tokens").as_u64 = some o →
          (out.index "usage").index "prompt_tokens" = .num (i : Rat) ∧
          (out.index "usage").index "completion_tokens" = .num (o : Rat) ∧
          (out.index "usage").index "total_tokens" =
            .num (((i + o) % 2 ^ 64 : Nat) : Rat) ∧
          (i + o < 2 ^ 64 →
            (out.index "usage").index "total_tokens" =
              .num ((i : Rat) + (o : Rat))))) := by
  constructor
  · intro hfind
    unfold from_anthropic
    simp only [hc, Option.some_bind, hfind, Option.none_bind]
    exact ⟨_, rfl⟩
  · intro b t hfind htext
    unfold from_anthropic
    simp only [hc, Option.some_bind, hfind, htext]
    refine ⟨_, _, rfl, rfl, rfl, ?_, ?_, ?_, ?_⟩
    · intro hs; rw [hs]; rfl
    · intro hs; rw [hs]; rfl
    · intro s hs hs1 hs2
      rw [hs]
      have hb1 : (s == "end_turn") = false := beq_eq_false_iff_ne.mpr hs1
      have hb2 : (s == "max_tokens") = false := beq_eq_false_iff_ne.mpr hs2
      simp [Json.index, List.lookup, hb1, hb2]
    · intro i o hi ho
      rw [hi, ho]
      refine ⟨rfl, rfl, ?_, ?_⟩
      · simp [Json.index, List.lookup, Option.getD]
      · intro hlt
        have hmod : (i + o) % 18446744073709551616 = i + o :=
          Nat.mod_eq_of_lt (by simpa using hlt)
        simp [Json.index, List.lookup, Option.getD, hmod]

/-- C8 witness: the translation applied to a concrete response with one text
block, stop reason `max_tokens`, and usage 3/4. -/
theorem from_anthropic_spec_witness :
    ∃ c out, from_anthropic respScenario = .ok out ∧
      out.index "choices" = .arr [c] ∧
      (c.index "message").index "content" = .str "Hi" ∧
      ((respScenario.index "stop_reason").as_str = some "end_turn" →
        c.index "finish_reason" = .str "stop") ∧
      ((respScenario.index "stop_reason").as_str = some "max_tokens" →
        c.index "finish_reason" = .str "length") ∧
      (∀ s, (respScenario.index "stop_reason").as_str = some s → s ≠ "end_turn" →
        s ≠ "max_tokens" → c.index "finish_reason" = .str s) ∧
      (∀ i o, ((respScenario.index "usage").index "input_tokens").as_u64 = some i →
        ((respScenario.index "usage").index "output_tokens").as_u64 = some o →
        (out.index "usage").index "prompt_tokens" = .num (i : Rat) ∧
        (out.index "usage").index "completion_tokens" = .num (o : Rat) ∧
        (out.index "usage").index "total_tokens" =
          .num (((i + o) % 2 ^ 64 : Nat) : Rat) ∧
        (i + o < 2 ^ 64 →
          (out.index "usage").index "total_tokens" =
            .num ((i : Rat) + (o : Rat)))) :=
  (from_anthropic_spec respScenario [textBlockHi] rfl).2 textBlockHi "Hi" rfl rfl

/-- C8 counterexample: at `input_tokens = 2 ^ 64 - 1` and `output_tokens = 1`
the `u64` sum wraps to zero, so the translated `total_tokens` is not the sum
of the token counts (a debug build aborts at this input instead). -/
theorem from_anthropic_total_wraps :
    ((respOverflow.index "usage").index "input_tokens").as_u64 =
      some (2 ^ 64 - 1) ∧
    ((respOverflow.index "usage").index "output_tokens").as_u64 = some 1 ∧
    ∃ out, from_anthropic respOverflow = .ok out ∧
      (out.index "usage").index "total_tokens" = .num ((0 : Nat) : Rat) ∧
      (out.index "usage").index "total_tokens" ≠
        .num ((((2 ^ 64 - 1) + 1 : Nat) : Rat)) := by
  refine ⟨rfl, rfl, _, rfl, rfl, ?_⟩
  intro h
  injection h with h
  rw [Nat.cast_inj] at h
  exact absurd h (by decide)

/-- Every frame sequence emitted by the stream reader loop ends with exactly
one `[DONE]` sentinel, whatever the parser state. -/
theorem streamLoop_ends_done (msg_id : String) :
    ∀ lines event_type model, ∃ cs,
      streamLoop msg_id lines event_type model = cs ++ [Frame.done] ∧
      cs.all (fun f => !(isDone f)) = true := by
  intro lines
  induction lines with
  | nil => intro et model; exact ⟨[], rfl, rfl⟩
  | cons line rest ih =>
    intro et model
    cases line with
    | blank => simpa [streamLoop] using ih "" model
    | event name => simpa [streamLoop] using ih name model
    | other => simpa [streamLoop] using ih et model
    | data payload =>
      rcases htr : translate_sse_event et payload msg_id model with ⟨fst, snd⟩
      cases fst with
      | none =>
        obtain ⟨cs, hcs, hall⟩ := ih et snd
        exact ⟨cs, by simp [streamLoop, htr, hcs], hall⟩
      | some j =>
        obtain ⟨cs, hcs, hall⟩ := ih et snd
        refine ⟨.chunk j :: cs, by simp [streamLoop, htr, hcs], ?_⟩
        simp only [List.all_cons, isDone, Bool.not_false, Bool.true_and]
        exact hall

/-- C9 (confirmed): `message_start` emits the role/empty-content chunk and
captures the model when present; a text `content_block_delta` emits the
delta text; `message_delta` maps `end_turn` to `stop` and `max_tokens` to
`length`; housekeeping events emit nothing; every emitted frame carries the
message id, object `chat.completion.chunk`, and the current model; and a
single `[DONE]` frame ends every stream. -/
theorem translate_sse_frames_spec :
    (∀ payload msg_id model,
      translate_sse_event "message_start" payload msg_id model =
        (some (sseChunk msg_id (capturedModel payload model)
          [("index", .num 0),
           ("delta", .obj [("role", .str "assistant"), ("content", .str "")]),
           ("finish_reason", .null)]), capturedModel payload model) ∧
      (∀ m, payload.bind (fun v => ((v.index "message").index "model").as_str) =
          some m → capturedModel payload model = m) ∧
      (payload.bind (fun v => ((v.index "message").index "model").as_str) = none →
        capturedModel payload model = model)) ∧
    (∀ v msg_id model t, ((v.index "delta").index "text").as_str = some t →
      translate_sse_event "content_block_delta" (some v) msg_id model =
        (some (sseChunk msg_id model
          [("index", .num 0), ("delta", .obj [("content", .str t)]),
           ("finish_reason", .null)]), model)) ∧
    (∀ v msg_id model,
      (((v.index "delta").index "stop_reason").as_str = some "end_turn" →
        translate_sse_event "message_delta" (some v) msg_id model =
          (some (sseChunk msg_id model
            [("index", .num 0), ("delta", .obj []),
             ("finish_reason", .str "stop")]), model)) ∧
      (((v.index "delta").index "stop_reason").as_str = some "max_tokens" →
        translate_sse_event "message_delta" (some v) msg_id model =
          (some (sseChunk msg_id model
            [("index", .num 0), ("delta", .obj []),
             ("finish_reason", .str "length")]), model))) ∧
    (∀ payload msg_id model,
      translate_sse_event "ping" payload msg_id model = (none, model) ∧
      translate_sse_event "content_block_start" payload msg_id model = (none, model) ∧
      translate_sse_event "content_block_stop" payload msg_id model = (none, model) ∧
      translate_sse_event "message_stop" payload msg_id model = (none, model)) ∧
    (∀ event_type payload msg_id model j model',
      translate_sse_event event_type payload msg_id model = (some j, model') →
      (j.index "id").as_str = some msg_id ∧
      (j.index "object").as_str = some "chat.completion.chunk" ∧
      (j.index "model").as_str = some model') ∧
    (∀ msg_id lines, ∃ cs,
      chat_completions_stream_frames msg_id lines = cs ++ [Frame.done] ∧
      cs.all (fun f => !(isDone f)) = true) := by
  refine ⟨?_, ?_, ?_, ?_, ?_, ?_⟩
  · intro payload msg_id model
    refine ⟨rfl, ?_, ?_⟩
    · intro m hm; unfold capturedModel; rw [hm]
    · intro hm; unfold capturedModel; rw [hm]
  · intro v msg_id model t ht
    unfold translate_sse_event
    simp only [Option.some_bind, ht]
    rfl
  · intro v msg_id model
    constructor
    · intro hr
      unfold translate_sse_event
      simp only [hr]
      rfl
    · intro hr
      unfold translate_sse_event
      simp only [hr]
      rfl
  · intro payload msg_id model
    exact ⟨rfl, rfl, rfl, rfl⟩
  · intro event_type payload msg_id model j model' h
    unfold translate_sse_event at h
    split at h
    · injection h with h1 h2
      injection h1 with h1
      subst h1; subst h2
      exact ⟨rfl, rfl, rfl⟩
    · split at h
      · rcases hcap : Option.bind payload
            (fun v => ((v.index "delta").index "text").as_str) with _ | t
        · rw [hcap] at h; cases h
        · rw [hcap] at h
          injection h with h1 h2
          injection h1 with h1
          subst h1; subst h2
          exact ⟨rfl, rfl, rfl⟩
      · split at h
        · cases payload with
          | none => cases h
          | some v =>
            injection h with h1 h2
            injection h1 with h1
            subst h1; subst h2
            exact ⟨rfl, rfl, rfl⟩
        · cases h
  · intro msg_id lines
    exact streamLoop_ends_done msg_id lines "" "unknown"

/-- C9 witness: a concrete text `content_block_delta` event translated into
the corresponding chunk. -/
theorem translate_sse_frames_spec_witness :
    translate_sse_event "content_block_delta" (some sseDeltaHi) "id-1" "m" =
      (some (sseChunk "id-1" "m"
        [("index", .num 0), ("delta", .obj [("content", .str "Hi!")]),
         ("finish_reason", .null)]), "m") :=
  translate_sse_frames_spec.2.1 sseDeltaHi "id-1" "m" "Hi!" rfl

/-- The escalate candidate loop returns the first candidate passing every
gate (backend present, client built, call succeeded, response sufficient);
when none passes, it fails with the exhaustion error. -/
theorem escalateGo_spec (cfg : Config) (env : String → Option String)
    (respond : Nat → Except String Json) (stream : Bool) :
    ∀ cands body,
      (∀ i t, cands.find? (escGood cfg env respond) = some (i, t) →
        ∃ r, respond i = .ok r ∧ is_sufficient r = true ∧
          (escalateGo cfg env respond stream cands body).1 =
            .ok (r, escalateEntry t i)) ∧
      (cands.find? (escGood cfg env respond) = none →
        (escalateGo cfg env respond stream cands body).1 =
          .error "all tiers exhausted without a sufficient response") := by
  intro cands
  induction cands with
  | nil =>
    intro body
    refine ⟨fun i t h => ?_, fun _ => rfl⟩
    cases h
  | cons hd tl ih =>
    intro body
    obtain ⟨idx, tier⟩ := hd
    rcases hb : cfg.backends.lookup tier.backend with _ | bcfg
    · have hg : escGood cfg env respond (idx, tier) = false := by
        unfold escGood; rw [hb]
      constructor
      · intro i t hf
        rw [List.find?_cons_of_neg _ (by simp [hg])] at hf
        obtain ⟨r, hr, hs, hgo⟩ := (ih body).1 i t hf
        exact ⟨r, hr, hs, by simpa [escalateGo, hb] using hgo⟩
      · intro hf
        rw [List.find?_cons_of_neg _ (by simp [hg])] at hf
        simpa [escalateGo, hb] using (ih body).2 hf
    · rcases hcn : backendClientNew env bcfg with e | u
      · have hg : escGood cfg env respond (idx, tier) = false := by
          simp [escGood, hb, hcn]
        constructor
        · intro i t hf
          rw [List.find?_cons_of_neg _ (by simp [hg])] at hf
          obtain ⟨r, hr, hs, hgo⟩ := (ih (rewriteBody body tier stream)).1 i t hf
          exact ⟨r, hr, hs, by simpa [escalateGo, hb, hcn] using hgo⟩
        · intro hf
          rw [List.find?_cons_of_neg _ (by simp [hg])] at hf
          simpa [escalateGo, hb, hcn] using (ih (rewriteBody body tier stream)).2 hf
      · rcases hr0 : respond idx with e | resp
        · have hg : escGood cfg env respond (idx, tier) = false := by
            simp [escGood, hb, hcn, hr0]
          constructor
          · intro i t hf
            rw [List.find?_cons_of_neg _ (by simp [hg])] at hf
            obtain ⟨r, hr, hs, hgo⟩ := (ih (rewriteBody body tier stream)).1 i t hf
            exact ⟨r, hr, hs, by simpa [escalateGo, hb, hcn, hr0] using hgo⟩
          · intro hf
            rw [List.find?_cons_of_neg _ (by simp [hg])] at hf
            simpa [escalateGo, hb, hcn, hr0] using
              (ih (rewriteBody body tier stream)).2 hf
        · cases hs0 : is_sufficient resp with
          | false =>
            have hg : escGood cfg env respond (idx, tier) = false := by
              simp [escGood, hb, hcn, hr0, hs0]
            constructor
            · intro i t hf
              rw [List.find?_cons_of_neg _ (by simp [hg])] at hf
              obtain ⟨r, hr, hs, hgo⟩ := (ih (rewriteBody body tier stream)).1 i t hf
              exact ⟨r, hr, hs, by simpa [escalateGo, hb, hcn, hr0, hs0] using hgo⟩
            · intro hf
              rw [List.find?_cons_of_neg _ (by simp [hg])] at hf
              simpa [escalateGo, hb, hcn, hr0, hs0] using
                (ih (rewriteBody body tier stream)).2 hf
          | true =>
            have hg : escGood cfg env respond (idx, tier) = true := by
              simp [escGood, hb, hcn, hr0, hs0]
            constructor
            · intro i t hf
              rw [List.find?_cons_of_pos _ (by simp [hg])] at hf
              injection hf with hf
              injection hf with h1 h2
              subst h1; subst h2
              exact ⟨resp, hr0, hs0, by simp [escalateGo, hb, hcn, hr0, hs0]⟩
            · intro hf
              rw [List.find?_cons_of_pos _ (by simp [hg])] at hf
              cases hf



/-- C5 (confirmed): escalate iterates tiers in order up to the index of the
tier named `max_auto_tier` (the last index when absent), skips candidates
with a missing backend, failed adapter build, failed call, or insufficient
response, returns the first sufficient response with
`escalated = (candidate_index > 0)` (see `escalateEntry`), and fails with
the exhaustion error when no candidate succeeds. -/
theorem escalate_first_sufficient (cfg : Config) (profile : ProfileConfig)
    (env : String → Option String) (respond : Nat → Except String Json)
    (body : Json) (stream : Bool) (_hne : cfg.tiers ≠ []) :
    (∀ i, cfg.tiers.findIdx? (fun t => t.name == profile.max_auto_tier) = some i →
      escalateMaxIdx cfg profile = i) ∧
    (cfg.tiers.findIdx? (fun t => t.name == profile.max_auto_tier) = none →
      escalateMaxIdx cfg profile = cfg.tiers.length - 1) ∧
    (∀ i t, ((cfg.tiers.take (escalateMaxIdx cfg profile + 1)).enum).find?
        (escGood cfg env respond) = some (i, t) →
      ∃ r, respond i = .ok r ∧ is_sufficient r = true ∧
        (escalateRun cfg profile env respond body stream).1 =
          .ok (r, escalateEntry t i)) ∧
    (((cfg.tiers.take (escalateMaxIdx cfg profile + 1)).enum).find?
        (escGood cfg env respond) = none →
      (escalateRun cfg profile env respond body stream).1 =
        .error "all tiers exhausted without a sufficient response") := by
  refine ⟨?_, ?_, ?_, ?_⟩
  · intro i h; unfold escalateMaxIdx; rw [h]
  · intro h; unfold escalateMaxIdx; rw [h]
  · intro i t h
    exact (escalateGo_spec cfg env respond stream _ body).1 i t h
  · intro h
    exact (escalateGo_spec cfg env respond stream _ body).2 h

/-- C5 witness: with a concrete two-tier config whose first tier answers
insufficiently, escalation returns the second candidate, marked escalated. -/
theorem escalate_first_sufficient_witness :
    cfgHealth.tiers ≠ [] ∧
    ∃ r, respondShortThenGood 1 = .ok r ∧ is_sufficient r = true ∧
      (escalateRun cfgHealth profEscalate envEmpty respondShortThenGood
        (Json.obj []) false).1 = .ok (r, escalateEntry tierEco 1) :=
  ⟨List.cons_ne_nil _ _,
    (escalate_first_sufficient cfgHealth profEscalate envEmpty
      respondShortThenGood (Json.obj []) false (List.cons_ne_nil _ _)).2.2.1
      1 tierEco rfl⟩

/-- C1 (code_bug evaluation): with a health window and threshold configured
and a traffic ring in which backend `b0` is unhealthy per the spec's
`backend_health` (three samples in the window, all failures, error rate 1
above the threshold one half), escalate still calls the adapter of `b0` —
its call trace is exactly `["b0"]` and the request is served by `b0`. The
health gate described by the spec and by the config.rs doc comments does
not exist in `escalate`. -/
theorem escalate_calls_unhealthy_backend :
    backendHealthy logThreeFailures 10 (mkRat 1 2) "b0" = false ∧
    cfgHealth.gateway.health_window = some 10 ∧
    cfgHealth.gateway.health_error_threshold = some (mkRat 1 2) ∧
    (escalateRun cfgHealth profEscalate envEmpty respondAlwaysGood
      (Json.obj []) false).2 = ["b0"] ∧
    (escalateRun cfgHealth profEscalate envEmpty respondAlwaysGood
      (Json.obj []) false).1 = .ok (goodResponse, escalateEntry tierFast 0) :=
  ⟨by decide, rfl, rfl, rfl, rfl⟩

/-- C2 (corrected): when routing fails — any error from dispatch or
escalate, or a profile or tier resolution failure — `route` surfaces the
error and leaves the traffic ring unchanged: no failed record is pushed. -/
theorem route_failure_pushes_no_record (cfg : Config) (log : TrafficLog)
    (body : Json) (profile_name request_id : Option String) (stream : Bool)
    (env : String → Option String) (respond : Nat → Except String Json) :
    ∀ e, (routeRun cfg log body profile_name request_id stream env respond).1 =
        .error e →
      (routeRun cfg log body profile_name request_id stream env respond).2 = log := by
  intro e
  simp only [routeRun]
  rcases hp : cfg.profile (profile_name.getD "default") with _ | profile
  · simp only [hp]; intro _; trivial
  · simp only [hp]
    rcases ht : targetTier cfg profile
        (((body.getKey "model").bind Json.as_str).getD "hint:fast") with _ | target
    · simp only [ht]; intro _; trivial
    · simp only [ht]
      rcases hr : (match profile.mode with
          | RoutingMode.dispatch => dispatchRun cfg body target stream env respond
          | RoutingMode.escalate => (escalateRun cfg profile env respond body stream).1)
          with err | ok
      · simp only [hr]; intro _; trivial
      · obtain ⟨response, entry⟩ := ok
        simp only [hr]
        intro h
        simp at h

/-- C2 witness: a concrete dispatch-mode route whose adapter call fails
surfaces the error with the ring left exactly as it was. -/
theorem route_failure_pushes_no_record_witness :
    (routeRun cfgDispatch (TrafficLog.new 100) reqFast none none false envEmpty
      respondBoom).1 = .error "boom" ∧
    (routeRun cfgDispatch (TrafficLog.new 100) reqFast none none false envEmpty
      respondBoom).2 = TrafficLog.new 100 :=
  ⟨rfl, route_failure_pushes_no_record cfgDispatch (TrafficLog.new 100) reqFast
    none none false envEmpty respondBoom "boom" rfl⟩

/-- C2 counterexample: on a concrete failing dispatch the ring stays empty,
where the claim requires a record with `success = false` carrying the error
message to be pushed before the error is surfaced. -/
theorem route_error_leaves_ring_empty :
    (routeRun cfgDispatch (TrafficLog.new 100) reqFast none none false envEmpty
      respondBoom).1 = .error "boom" ∧
    ((routeRun cfgDispatch (TrafficLog.new 100) reqFast none none false envEmpty
      respondBoom).2).entries = [] :=
  ⟨rfl, rfl⟩

end ClawRouter
